import Mathlib

/-!
Verification of the SpectraDownshift signal-processing kernel
(`Spectradownshift/processor.py`) against its natural-language specification.

Modelling conventions:
* Sample buffers are `List ℚ`; sample rates and cutoffs are integers as in the
  source (`original_sr : int`, `cutoff_freq : int`), while the intermediate
  rate `float(cutoff_freq * 2)` and the rate arguments of `_resample` are
  rationals (Python floats are modelled as exact rationals; every float
  produced on the paths verified here is integer-valued or a ratio of small
  integers, so no rounding of the float representation itself is modelled).
* `np.round` rounds halves to even; `roundHalfToEven` below reproduces that,
  and `int(...)` applied to its integral result is the identity.
* The external numeric backends (`scipy.signal.resample`, `soxr.resample`,
  `butter`/`filtfilt`) are parameters of the development, collected in a
  `Backends` structure together with the one documented contract the kernel
  relies on: `scipy.signal.resample(x, num)` returns exactly `num` samples.
  Availability of the lazily imported libraries is a pair of flags: the
  `scipy` import brings `resample`, `butter` and `filtfilt` together, the
  `soxr` import is separate, exactly as in the source's import block.
* Python exceptions raised by the kernel are the constructors of `PyError`.
  The spec's taxonomy maps `TypeError ↦ InvalidInput`,
  `ImportError ↦ EngineUnavailable`, `ValueError ↦ UnsupportedEngine`;
  `invalidCutoff` is the spec's `InvalidCutoff`, included so that claims about
  it can be stated — no code path of the source constructs it.
  `zeroDivisionError` is Python's `ZeroDivisionError`, raised by a float
  division whose divisor is zero.
-/

/-- Python exceptions that the kernel can raise (plus the spec-named
`invalidCutoff`, which the source never raises). Source messages are omitted:
`typeError` carries "Input data must be a floating-point NumPy array.",
`importError` one of the "... is not installed ..." messages, and `valueError`
"Unknown resampler engine: ...". -/
inductive PyError where
  | typeError
  | importError
  | valueError
  | zeroDivisionError
  | invalidCutoff
  deriving DecidableEq, Repr

/-- NumPy dtypes relevant to the constructor's validation. -/
inductive Dtype where
  | float32
  | float64
  | int16
  | int32
  | int64
  | uint8
  deriving DecidableEq, Repr

/-- `np.issubdtype(dtype, np.floating)`. -/
def Dtype.isFloating : Dtype → Bool
  | .float32 => true
  | .float64 => true
  | _ => false

/-- A NumPy array as the constructor receives it: a dtype plus the samples.
(The source also rejects non-`ndarray` inputs via `isinstance`; only array
inputs are modelled, which is what the claims quantify over.) -/
structure NDArray where
  dtype : Dtype
  samples : List ℚ
  deriving DecidableEq, Repr

/-- `int(np.round(q))` for the float quantities the kernel rounds: `np.round`
rounds halves to the nearest even integer, and `int` of that integral float is
exact. -/
def roundHalfToEven (q : ℚ) : ℤ :=
  let n := Int.floor q
  let frac := q - n
  if frac < 1/2 then n
  else if 1/2 < frac then n + 1
  else if n % 2 = 0 then n else n + 1

/-- The external numeric backends, abstracted. `scipyAvailable` is the success
of `from scipy.signal import resample, butter, filtfilt` (one import, so the
three are available together); `soxrAvailable` that of `import soxr`.
`scipy_resample_length` is scipy's documented contract that
`scipy.signal.resample(x, num)` returns exactly `num` samples, the only
property of the backends the kernel's length behaviour relies on.
`filtfilt` takes the Butterworth order and normalized cutoff from `butter`
and the data; `soxr_resample` takes data and the two rates (quality fixed to
VHQ at the call site). -/
structure Backends where
  scipyAvailable : Bool
  soxrAvailable : Bool
  scipy_resample : List ℚ → ℤ → List ℚ
  scipy_resample_length : ∀ d n, (scipy_resample d n).length = n.toNat
  soxr_resample : List ℚ → ℚ → ℚ → List ℚ
  filtfilt : ℕ → ℚ → List ℚ → List ℚ

/-- The transform context held by `AudioProcessor` after construction. -/
structure AudioProcessor where
  data : List ℚ
  original_sr : ℤ
  cutoff_freq : ℤ
  deriving DecidableEq, Repr

/-- `AudioProcessor.__init__`: raises `TypeError` unless the input is a
floating-point NumPy array, then stores `data`, `original_sr`, `cutoff_freq`
(the derived `intermediate_sr = float(cutoff_freq * 2)` is a function of the
stored `cutoff_freq`, see `AudioProcessor.intermediate_sr`). -/
def AudioProcessor.init (arr : NDArray) (original_sr cutoff_freq : ℤ) :
    Except PyError AudioProcessor :=
  if arr.dtype.isFloating then
    .ok ⟨arr.samples, original_sr, cutoff_freq⟩
  else
    .error .typeError

/-- `self.intermediate_sr = float(self.cutoff_freq * 2)`. -/
def AudioProcessor.intermediate_sr (p : AudioProcessor) : ℚ :=
  ((p.cutoff_freq * 2 : ℤ) : ℚ)

/-- `AudioProcessor._apply_zero_phase_filter(data, sr, passes)`: raises
`ImportError` when `butter`/`filtfilt` are unavailable; returns `data`
unchanged when `cutoff_freq ≥ nyquist = 0.5 * sr`; otherwise designs a
Butterworth low-pass of order `8 * passes` at normalized cutoff
`cutoff_freq / nyquist` and applies it with `filtfilt`. The Python default
`passes=3` is supplied explicitly at the one call site. -/
def AudioProcessor.apply_zero_phase_filter (p : AudioProcessor) (bk : Backends)
    (data : List ℚ) (sr : ℤ) (passes : ℕ) : Except PyError (List ℚ) :=
  if bk.scipyAvailable = false then .error .importError
  else
    let final_order := 8 * passes
    let nyquist : ℚ := (1/2) * (sr : ℚ)
    if nyquist ≤ (p.cutoff_freq : ℚ) then .ok data
    else
      let normal_cutoff : ℚ := (p.cutoff_freq : ℚ) / nyquist
      .ok (bk.filtfilt final_order normal_cutoff data)

/-- `AudioProcessor._resample(data, in_sr, out_sr, engine)`: on `"scipy"`,
after the availability check, computes
`num_samples = int(np.round(len(data) * out_sr / in_sr))` (a Python float
division, hence `ZeroDivisionError` when `in_sr == 0`) and delegates to
`scipy.signal.resample`; on `"soxr"` delegates to `soxr.resample` at VHQ
quality; any other engine string raises `ValueError`. (`_resample` reads no
instance state, so it is modelled as a plain function.) -/
def AudioProcessor.resample (bk : Backends) (data : List ℚ) (in_sr out_sr : ℚ)
    (engine : String) : Except PyError (List ℚ) :=
  if engine = "scipy" then
    if bk.scipyAvailable = false then .error .importError
    else if in_sr = 0 then .error .zeroDivisionError
    else
      let num_samples : ℤ := roundHalfToEven ((data.length : ℚ) * out_sr / in_sr)
      .ok (bk.scipy_resample data num_samples)
  else if engine = "soxr" then
    if bk.soxrAvailable = false then .error .importError
    else .ok (bk.soxr_resample data in_sr out_sr)
  else .error .valueError

/-- `AudioProcessor.prepare(resampler_engine)` (Python default `"scipy"`),
with the instance state threaded explicitly: the second component of the
result is the state of `self` when the method exits. The body first computes
`speed_factor = self.intermediate_sr / self.original_sr` for the progress
message (a float division: `ZeroDivisionError` when `original_sr == 0`), then
resamples `self.data` declaring source rate `intermediate_sr` and destination
rate `original_sr`, applies the 3-pass anti-alias filter at `original_sr`
only when the engine is `"soxr"`, and returns the buffer paired with
`original_sr`. No statement of the body assigns to `self`. -/
def AudioProcessor.prepare (p : AudioProcessor) (bk : Backends)
    (resampler_engine : String) :
    Except PyError (List ℚ × ℤ) × AudioProcessor :=
  if (p.original_sr : ℚ) = 0 then (.error .zeroDivisionError, p)
  else
    match AudioProcessor.resample bk p.data p.intermediate_sr
        (p.original_sr : ℚ) resampler_engine with
    | .error e => (.error e, p)
    | .ok processed_data =>
      if resampler_engine = "soxr" then
        match p.apply_zero_phase_filter bk processed_data p.original_sr 3 with
        | .error e => (.error e, p)
        | .ok filtered => (.ok (filtered, p.original_sr), p)
      else (.ok (processed_data, p.original_sr), p)

/-- `AudioProcessor.restore(resampler_engine)` (Python default `"scipy"`),
with the instance state threaded explicitly as in `prepare`. The body
resamples `self.data` from declared source rate `original_sr` down to
destination rate `intermediate_sr`, then computes
`speed_factor = final_sr / self.intermediate_sr` for the progress message
(a float division: `ZeroDivisionError` when `intermediate_sr == 0`), and
returns the converted buffer paired with `final_sr = original_sr`. No
statement of the body assigns to `self`. -/
def AudioProcessor.restore (p : AudioProcessor) (bk : Backends)
    (resampler_engine : String) :
    Except PyError (List ℚ × ℤ) × AudioProcessor :=
  match AudioProcessor.resample bk p.data (p.original_sr : ℚ)
      p.intermediate_sr resampler_engine with
  | .error e => (.error e, p)
  | .ok data_converted =>
    if p.intermediate_sr = 0 then (.error .zeroDivisionError, p)
    else (.ok (data_converted, p.original_sr), p)

/-- A concrete instantiation of the backends used to evaluate the kernel on
concrete inputs: both libraries available, `scipy_resample` realizing the
length contract, the other backends simple total functions. -/
def sampleBackends : Backends where
  scipyAvailable := true
  soxrAvailable := true
  scipy_resample := fun _ n => List.replicate n.toNat 0
  scipy_resample_length := fun _ n => List.length_replicate n.toNat 0
  soxr_resample := fun d _ _ => d
  filtfilt := fun _ _ d => d.map (fun x => x / 2)

/-- A backends instantiation in which neither library could be imported,
used to evaluate the engine-selection failure paths on concrete inputs. -/
def offlineBackends : Backends where
  scipyAvailable := false
  soxrAvailable := false
  scipy_resample := fun _ n => List.replicate n.toNat 0
  scipy_resample_length := fun _ n => List.length_replicate n.toNat 0
  soxr_resample := fun d _ _ => d
  filtfilt := fun _ _ d => d

/-! ### Properties of the rounding used by the precision engine -/

/-- `roundHalfToEven` is within `1/2` of its argument. -/
theorem abs_roundHalfToEven_sub_le (q : ℚ) :
    |(roundHalfToEven q : ℚ) - q| ≤ 1/2 := by
  have h0 : (Int.floor q : ℚ) ≤ q := Int.floor_le q
  have h1 : q < Int.floor q + 1 := Int.lt_floor_add_one q
  simp only [roundHalfToEven]
  split_ifs with ha hb hc
  all_goals rw [abs_le]
  all_goals constructor <;> push_cast <;> linarith

/-- Any integer strictly within `1/2` of `q` is `roundHalfToEven q`. -/
theorem roundHalfToEven_eq_of_close (q : ℚ) (m : ℤ) (h : |q - (m : ℚ)| < 1/2) :
    roundHalfToEven q = m := by
  rw [abs_lt] at h
  obtain ⟨h1, h2⟩ := h
  rcases le_or_lt (m : ℚ) q with hq | hq
  · have hf : Int.floor q = m := by
      rw [Int.floor_eq_iff]
      exact ⟨hq, by linarith⟩
    simp only [roundHalfToEven, hf]
    rw [if_pos (by linarith)]
  · have hf : Int.floor q = m - 1 := by
      rw [Int.floor_eq_iff]
      constructor <;> push_cast <;> linarith
    simp only [roundHalfToEven, hf]
    have hgt : 1/2 < q - ((m - 1 : ℤ) : ℚ) := by push_cast; linarith
    rw [if_neg (not_lt.mpr hgt.le), if_pos hgt]
    omega

/-- `roundHalfToEven` of a nonnegative rational is nonnegative. -/
theorem roundHalfToEven_nonneg (q : ℚ) (hq : 0 ≤ q) : 0 ≤ roundHalfToEven q := by
  have h0 : 0 ≤ Int.floor q := Int.floor_nonneg.mpr hq
  simp only [roundHalfToEven]
  split_ifs <;> omega

/-! ### Helper equations for the scipy paths of the kernel -/

/-- On the `"scipy"` engine with the library available and a nonzero declared
source rate, `_resample` returns the scipy backend's output at the rounded
sample count. -/
theorem resample_scipy_eq (bk : Backends) (data : List ℚ) (in_sr out_sr : ℚ)
    (hs : bk.scipyAvailable = true) (hin : ¬ in_sr = 0) :
    AudioProcessor.resample bk data in_sr out_sr "scipy" =
      .ok (bk.scipy_resample data
        (roundHalfToEven ((data.length : ℚ) * out_sr / in_sr))) := by
  simp [AudioProcessor.resample, hs, hin]

/-- `prepare` on the `"scipy"` engine, nonzero original and intermediate
rates: no filtering, output is the resampler output tagged `original_sr`,
instance state unchanged. -/
theorem prepare_scipy_eq (bk : Backends) (p : AudioProcessor)
    (hs : bk.scipyAvailable = true) (hR : ¬ (p.original_sr : ℚ) = 0)
    (hI : ¬ p.intermediate_sr = 0) :
    p.prepare bk "scipy" =
      (.ok (bk.scipy_resample p.data
          (roundHalfToEven
            ((p.data.length : ℚ) * (p.original_sr : ℚ) / p.intermediate_sr)),
        p.original_sr), p) := by
  simp [AudioProcessor.prepare, resample_scipy_eq bk p.data _ _ hs hI, hR]

/-- `restore` on the `"scipy"` engine, nonzero original and intermediate
rates: output is the resampler output tagged `original_sr`, instance state
unchanged. -/
theorem restore_scipy_eq (bk : Backends) (p : AudioProcessor)
    (hs : bk.scipyAvailable = true) (hR : ¬ (p.original_sr : ℚ) = 0)
    (hI : ¬ p.intermediate_sr = 0) :
    p.restore bk "scipy" =
      (.ok (bk.scipy_resample p.data
          (roundHalfToEven
            ((p.data.length : ℚ) * p.intermediate_sr / (p.original_sr : ℚ))),
        p.original_sr), p) := by
  simp [AudioProcessor.restore, resample_scipy_eq bk p.data _ _ hs hR, hI]

/-- The derived intermediate rate is `2 · C` as a rational. -/
theorem intermediate_sr_eq (p : AudioProcessor) :
    p.intermediate_sr = 2 * (p.cutoff_freq : ℚ) := by
  simp [AudioProcessor.intermediate_sr]
  ring

/-! ### Claims -/

/-- Claim C2 (length law for `prepare`): for every non-empty buffer of length
`N`, original rate `R > 0` and cutoff `C > 0`, `prepare` with the precision
(`"scipy"`) engine succeeds and returns a buffer of exactly
`round(N · R / (2C))` samples (round = round-half-to-even, as `np.round`),
tagged at rate `R`. -/
theorem prepare_scipy_length (bk : Backends) (p : AudioProcessor)
    (hs : bk.scipyAvailable = true) (hC : 0 < p.cutoff_freq)
    (hR : 0 < p.original_sr) (hne : p.data ≠ []) :
    ∃ buf : List ℚ,
      (p.prepare bk "scipy").1 = .ok (buf, p.original_sr) ∧
      (buf.length : ℤ) = roundHalfToEven
        ((p.data.length : ℚ) * (p.original_sr : ℚ) / (2 * (p.cutoff_freq : ℚ))) := by
  have hc' : (0 : ℚ) < (p.cutoff_freq : ℚ) := by exact_mod_cast hC
  have hr' : (0 : ℚ) < (p.original_sr : ℚ) := by exact_mod_cast hR
  have hR' : ¬ (p.original_sr : ℚ) = 0 := by linarith
  have hI : ¬ p.intermediate_sr = 0 := by
    rw [intermediate_sr_eq]
    intro hz
    linarith
  have harg : (p.data.length : ℚ) * (p.original_sr : ℚ) / p.intermediate_sr
      = (p.data.length : ℚ) * (p.original_sr : ℚ) / (2 * (p.cutoff_freq : ℚ)) := by
    rw [intermediate_sr_eq]
  refine ⟨bk.scipy_resample p.data (roundHalfToEven
      ((p.data.length : ℚ) * (p.original_sr : ℚ) / (2 * (p.cutoff_freq : ℚ)))),
    ?_, ?_⟩
  · rw [prepare_scipy_eq bk p hs hR' hI, harg]
  · rw [bk.scipy_resample_length, Int.toNat_of_nonneg]
    apply roundHalfToEven_nonneg
    apply div_nonneg
    · exact mul_nonneg (Nat.cast_nonneg _) hr'.le
    · linarith

/-- Claim C3 (length law for `restore`): for every non-empty buffer of length
`N`, original rate `R > 0` and cutoff `C > 0`, `restore` with the precision
(`"scipy"`) engine succeeds and returns a buffer of exactly
`round(N · (2C) / R)` samples (round = round-half-to-even, as `np.round`) —
a genuine downsample from declared source rate `R` to destination rate
`I = 2C`. -/
theorem restore_scipy_length (bk : Backends) (p : AudioProcessor)
    (hs : bk.scipyAvailable = true) (hC : 0 < p.cutoff_freq)
    (hR : 0 < p.original_sr) (hne : p.data ≠ []) :
    ∃ buf : List ℚ,
      (p.restore bk "scipy").1 = .ok (buf, p.original_sr) ∧
      (buf.length : ℤ) = roundHalfToEven
        ((p.data.length : ℚ) * (2 * (p.cutoff_freq : ℚ)) / (p.original_sr : ℚ)) := by
  have hc' : (0 : ℚ) < (p.cutoff_freq : ℚ) := by exact_mod_cast hC
  have hr' : (0 : ℚ) < (p.original_sr : ℚ) := by exact_mod_cast hR
  have hR' : ¬ (p.original_sr : ℚ) = 0 := by linarith
  have hI : ¬ p.intermediate_sr = 0 := by
    rw [intermediate_sr_eq]
    intro hz
    linarith
  have harg : (p.data.length : ℚ) * p.intermediate_sr / (p.original_sr : ℚ)
      = (p.data.length : ℚ) * (2 * (p.cutoff_freq : ℚ)) / (p.original_sr : ℚ) := by
    rw [intermediate_sr_eq]
  refine ⟨bk.scipy_resample p.data (roundHalfToEven
      ((p.data.length : ℚ) * (2 * (p.cutoff_freq : ℚ)) / (p.original_sr : ℚ))),
    ?_, ?_⟩
  · rw [restore_scipy_eq bk p hs hR' hI, harg]
  · rw [bk.scipy_resample_length, Int.toNat_of_nonneg]
    apply roundHalfToEven_nonneg
    apply div_nonneg
    · apply mul_nonneg (Nat.cast_nonneg _)
      linarith
    · linarith

/-- Claim C4 (rate tagging of `restore`): whenever `restore` returns a pair,
its sample-rate component is `original_sr` — never the intermediate rate —
for every buffer, context and engine. -/
theorem restore_tags_original_sr (p : AudioProcessor) (bk : Backends)
    (engine : String) (buf : List ℚ) (sr : ℤ)
    (h : (p.restore bk engine).1 = .ok (buf, sr)) :
    sr = p.original_sr := by
  unfold AudioProcessor.restore at h
  rcases hr : AudioProcessor.resample bk p.data (p.original_sr : ℚ)
      p.intermediate_sr engine with e | d
  · rw [hr] at h
    simp at h
  · rw [hr] at h
    by_cases hI : p.intermediate_sr = 0
    · simp [hI] at h
    · simp [hI] at h
      exact h.2.symm

/-- Claim C5 (filter no-op boundary): with the filter primitives available
and `cutoff ≥ sampleRate / 2` (at or above Nyquist), the zero-phase filter
returns its input buffer unchanged, for any number of passes. -/
theorem applyLowPass_nyquist_noop (p : AudioProcessor) (bk : Backends)
    (data : List ℚ) (sr : ℤ) (passes : ℕ) (hs : bk.scipyAvailable = true)
    (hcut : (sr : ℚ) / 2 ≤ (p.cutoff_freq : ℚ)) :
    p.apply_zero_phase_filter bk data sr passes = .ok data := by
  have hc : (1/2 : ℚ) * (sr : ℚ) ≤ (p.cutoff_freq : ℚ) := by linarith
  have h1 : ¬ (bk.scipyAvailable = false) := by simp [hs]
  rw [AudioProcessor.apply_zero_phase_filter, if_neg h1]
  show (if (1/2 : ℚ) * (sr : ℚ) ≤ (p.cutoff_freq : ℚ) then Except.ok data
      else Except.ok
        (bk.filtfilt (8 * passes) ((p.cutoff_freq : ℚ) / ((1/2 : ℚ) * (sr : ℚ))) data))
    = Except.ok data
  rw [if_pos hc]

/-- Claim C10 (context-immutability frame): neither `prepare` nor `restore`
modifies any field of the processor — the threaded instance state is returned
unchanged for every backend and engine, so repeated calls on the same
instance see identical context (and, the functions being pure, produce
identical results). -/
theorem prepare_restore_context_immutable (p : AudioProcessor) (bk : Backends)
    (engine : String) :
    (p.prepare bk engine).2 = p ∧ (p.restore bk engine).2 = p := by
  constructor
  · unfold AudioProcessor.prepare
    repeat first | rfl | split
  · unfold AudioProcessor.restore
    repeat first | rfl | split

/-- Witness for claim C2: a 2-sample buffer at `R = 44100`, `C = 17000`
prepares to exactly `round(2 · 44100 / 34000) = 3` samples tagged `44100`. -/
theorem prepare_scipy_length_witness :
    ∃ buf : List ℚ,
      ((AudioProcessor.mk [1, 1] 44100 17000).prepare sampleBackends "scipy").1
          = .ok (buf, 44100) ∧ (buf.length : ℤ) = 3 := by
  obtain ⟨buf, h1, h2⟩ := prepare_scipy_length sampleBackends
    ⟨[1, 1], 44100, 17000⟩ rfl (by decide) (by decide) (by decide)
  refine ⟨buf, h1, ?_⟩
  rw [h2]
  norm_num [roundHalfToEven]

/-- Witness for claim C3: a 2-sample buffer at `R = 44100`, `C = 17000`
restores to exactly `round(2 · 34000 / 44100) = 2` samples tagged `44100`. -/
theorem restore_scipy_length_witness :
    ∃ buf : List ℚ,
      ((AudioProcessor.mk [1, 1] 44100 17000).restore sampleBackends "scipy").1
          = .ok (buf, 44100) ∧ (buf.length : ℤ) = 2 := by
  obtain ⟨buf, h1, h2⟩ := restore_scipy_length sampleBackends
    ⟨[1, 1], 44100, 17000⟩ rfl (by decide) (by decide) (by decide)
  refine ⟨buf, h1, ?_⟩
  rw [h2]
  norm_num [roundHalfToEven]

/-- Witness for claim C4: a concrete `restore` run returns the original rate
`44100` as the tagged rate. -/
theorem restore_tags_original_sr_witness :
    (44100 : ℤ) = (AudioProcessor.mk [1, 1] 44100 17000).original_sr :=
  restore_tags_original_sr ⟨[1, 1], 44100, 17000⟩ sampleBackends "scipy"
    [0, 0] 44100 (by
      rw [restore_scipy_eq sampleBackends ⟨[1, 1], 44100, 17000⟩ rfl (by norm_num)
        (by norm_num [AudioProcessor.intermediate_sr])]
      norm_num [AudioProcessor.intermediate_sr, roundHalfToEven, sampleBackends]
      rfl)

/-- Witness for claim C5: at `sr = 44100` and cutoff `22050` (exactly
Nyquist), the filter returns its input unchanged, here with 5 passes. -/
theorem applyLowPass_nyquist_noop_witness :
    (AudioProcessor.mk [] 44100 22050).apply_zero_phase_filter sampleBackends
      [1, 2] 44100 5 = .ok [1, 2] :=
  applyLowPass_nyquist_noop ⟨[], 44100, 22050⟩ sampleBackends [1, 2] 44100 5
    rfl (by norm_num)

/-- Claim C8 (engine selection errors): for every buffer and rate pair,
`_resample` fails with `ImportError` (the spec's `EngineUnavailable`) when
the requested engine's backend library could not be loaded (`scipy` for the
precision engine, `soxr` for the fast engine), and fails with `ValueError`
(the spec's `UnsupportedEngine`) for any selector other than the two
recognized engines — so it never silently substitutes a different engine. -/
theorem resample_engine_selection (bk : Backends) (data : List ℚ)
    (in_sr out_sr : ℚ) (engine : String) :
    (engine = "scipy" → bk.scipyAvailable = false →
      AudioProcessor.resample bk data in_sr out_sr engine = .error .importError) ∧
    (engine = "soxr" → bk.soxrAvailable = false →
      AudioProcessor.resample bk data in_sr out_sr engine = .error .importError) ∧
    (engine ≠ "scipy" → engine ≠ "soxr" →
      AudioProcessor.resample bk data in_sr out_sr engine = .error .valueError) := by
  refine ⟨?_, ?_, ?_⟩
  · intro he hu
    subst he
    simp [AudioProcessor.resample, hu]
  · intro he hu
    subst he
    simp [AudioProcessor.resample, hu]
  · intro h1 h2
    simp [AudioProcessor.resample, h1, h2]

/-- Witness for claim C8: with both libraries unavailable, requesting
`"scipy"` or `"soxr"` fails with `ImportError`, and the unrecognized
selector `"polyphase"` fails with `ValueError`. -/
theorem resample_engine_selection_witness :
    AudioProcessor.resample offlineBackends [1] 44100 34000 "scipy"
        = .error .importError ∧
    AudioProcessor.resample offlineBackends [1] 44100 34000 "soxr"
        = .error .importError ∧
    AudioProcessor.resample offlineBackends [1] 44100 34000 "polyphase"
        = .error .valueError :=
  ⟨(resample_engine_selection offlineBackends [1] 44100 34000 "scipy").1
      rfl rfl,
   (resample_engine_selection offlineBackends [1] 44100 34000 "soxr").2.1
      rfl rfl,
   (resample_engine_selection offlineBackends [1] 44100 34000 "polyphase").2.2
      (by decide) (by decide)⟩

/-- Claim C9 (conditional filtering in `prepare`): with a nonzero original
rate, whenever the resampling stage succeeds with buffer `buf`, `prepare` on
the fast (`"soxr"`) engine returns the anti-alias filter — 3 passes, applied
at rate `original_sr` with the context's cutoff — applied to `buf`, while
`prepare` on the precision (`"scipy"`) engine returns `buf` directly: the
filtering stage runs if and only if the engine is `"soxr"`. -/
theorem prepare_filters_iff_soxr (p : AudioProcessor) (bk : Backends)
    (buf : List ℚ) (hR : ¬ (p.original_sr : ℚ) = 0) :
    (AudioProcessor.resample bk p.data p.intermediate_sr (p.original_sr : ℚ)
        "soxr" = .ok buf →
      (p.prepare bk "soxr").1 =
        (p.apply_zero_phase_filter bk buf p.original_sr 3).map
          (fun d => (d, p.original_sr))) ∧
    (AudioProcessor.resample bk p.data p.intermediate_sr (p.original_sr : ℚ)
        "scipy" = .ok buf →
      (p.prepare bk "scipy").1 = .ok (buf, p.original_sr)) := by
  constructor
  · intro hres
    unfold AudioProcessor.prepare
    rw [if_neg hR, hres]
    cases hf : p.apply_zero_phase_filter bk buf p.original_sr 3 <;>
      simp [hf, Except.map]
  · intro hres
    unfold AudioProcessor.prepare
    rw [if_neg hR, hres]
    simp

/-- Witness for claim C9: on a concrete context, `prepare` with `"soxr"`
equals the filtered resampler output, and `prepare` with `"scipy"` equals
the resampler output `[0, 0, 0]` directly (unfiltered). -/
theorem prepare_filters_iff_soxr_witness :
    ((AudioProcessor.mk [1, 1] 44100 17000).prepare sampleBackends "soxr").1 =
      ((AudioProcessor.mk [1, 1] 44100 17000).apply_zero_phase_filter
        sampleBackends [1, 1] 44100 3).map (fun d => (d, 44100)) ∧
    ((AudioProcessor.mk [1, 1] 44100 17000).prepare sampleBackends "scipy").1 =
      .ok ([0, 0, 0], 44100) :=
  ⟨(prepare_filters_iff_soxr ⟨[1, 1], 44100, 17000⟩ sampleBackends [1, 1]
      (by norm_num)).1 rfl,
   (prepare_filters_iff_soxr ⟨[1, 1], 44100, 17000⟩ sampleBackends [0, 0, 0]
      (by norm_num)).2 (by
        show AudioProcessor.resample sampleBackends [1, 1]
          ((AudioProcessor.mk [1, 1] 44100 17000).intermediate_sr)
          ((44100 : ℤ) : ℚ) "scipy" = .ok [0, 0, 0]
        rw [resample_scipy_eq sampleBackends [1, 1] _ _ rfl
          (by norm_num [AudioProcessor.intermediate_sr])]
        norm_num [AudioProcessor.intermediate_sr, roundHalfToEven,
          sampleBackends]
        rfl)⟩

/-- `roundHalfToEven` never rounds below the floor. -/
theorem floor_le_roundHalfToEven (q : ℚ) :
    Int.floor q ≤ roundHalfToEven q := by
  simp only [roundHalfToEven]
  split_ifs <;> omega

/-- Claim C1 (round-trip length law): for every non-empty buffer `x` of
length `N` at rate `R` with cutoff `0 < C < R/2`, running `restore` (same
`R`, `C`, precision engine) on the buffer produced by `prepare` yields a
buffer whose length is within ±1 of `N` — the two round-half-to-even
roundings in fact cancel exactly, since the downscaling factor `2C/R` is
strictly below 1. -/
theorem roundtrip_length (bk : Backends) (x : List ℚ) (R C : ℤ)
    (hx : x ≠ []) (hC : 0 < C) (hCR : 2 * C < R)
    (hs : bk.scipyAvailable = true) :
    ∃ y z : List ℚ,
      ((AudioProcessor.mk x R C).prepare bk "scipy").1 = .ok (y, R) ∧
      ((AudioProcessor.mk y R C).restore bk "scipy").1 = .ok (z, R) ∧
      |(z.length : ℤ) - (x.length : ℤ)| ≤ 1 := by
  have hR : 0 < R := by omega
  have hc' : (0 : ℚ) < (C : ℚ) := by exact_mod_cast hC
  have hr' : (0 : ℚ) < (R : ℚ) := by exact_mod_cast hR
  have hcr' : 2 * (C : ℚ) < (R : ℚ) := by exact_mod_cast hCR
  obtain ⟨y, hy1, hy2⟩ := prepare_scipy_length bk ⟨x, R, C⟩ hs hC hR hx
  have hy2' : (y.length : ℤ) =
      roundHalfToEven ((x.length : ℚ) * (R : ℚ) / (2 * (C : ℚ))) := hy2
  -- the quantity being rounded in `prepare` exceeds 1, so `y` is non-empty
  have hN1 : (1 : ℚ) ≤ (x.length : ℚ) := by
    have := List.length_pos.mpr hx
    exact_mod_cast this
  have hq1gt : (1 : ℚ) < (x.length : ℚ) * (R : ℚ) / (2 * (C : ℚ)) := by
    rw [lt_div_iff₀ (by positivity)]
    nlinarith
  have hylen : 1 ≤ (y.length : ℤ) := by
    rw [hy2']
    calc (1 : ℤ) ≤ Int.floor ((x.length : ℚ) * (R : ℚ) / (2 * (C : ℚ))) :=
          Int.le_floor.mpr (by exact_mod_cast hq1gt.le)
      _ ≤ _ := floor_le_roundHalfToEven _
  have hyne : y ≠ [] := by
    apply List.length_pos.mp
    omega
  obtain ⟨z, hz1, hz2⟩ := restore_scipy_length bk ⟨y, R, C⟩ hs hC hR hyne
  have hz2' : (z.length : ℤ) =
      roundHalfToEven ((y.length : ℚ) * (2 * (C : ℚ)) / (R : ℚ)) := hz2
  -- rounding the downsampled count recovers the original length exactly
  have habs := abs_roundHalfToEven_sub_le ((x.length : ℚ) * (R : ℚ) / (2 * (C : ℚ)))
  have hyq : ((y.length : ℕ) : ℚ) =
      ((roundHalfToEven ((x.length : ℚ) * (R : ℚ) / (2 * (C : ℚ))) : ℤ) : ℚ) := by
    exact_mod_cast hy2'
  have key : roundHalfToEven ((y.length : ℚ) * (2 * (C : ℚ)) / (R : ℚ))
      = (x.length : ℤ) := by
    apply roundHalfToEven_eq_of_close
    rw [hyq]
    set r : ℚ := ((roundHalfToEven ((x.length : ℚ) * (R : ℚ) / (2 * (C : ℚ))) : ℤ) : ℚ)
      with hr
    have hrw : r * (2 * (C : ℚ)) / (R : ℚ) - ((x.length : ℤ) : ℚ)
        = (r - (x.length : ℚ) * (R : ℚ) / (2 * (C : ℚ))) * ((2 * (C : ℚ)) / (R : ℚ)) := by
      field_simp
      ring
    have ht : (0 : ℚ) < 2 * (C : ℚ) / (R : ℚ) := by positivity
    rw [hrw, abs_mul, abs_of_pos ht]
    have hlt1 : 2 * (C : ℚ) / (R : ℚ) < 1 := (div_lt_one hr').mpr hcr'
    have hnn : (0 : ℚ) ≤ |r - (x.length : ℚ) * (R : ℚ) / (2 * (C : ℚ))| := abs_nonneg _
    nlinarith [mul_nonneg
      (by linarith : (0 : ℚ) ≤ 1/2 - |r - (x.length : ℚ) * (R : ℚ) / (2 * (C : ℚ))|)
      ht.le]
  refine ⟨y, z, hy1, hz1, ?_⟩
  rw [hz2', key]
  simp

/-- Witness for claim C1: `x = [1, 1]`, `R = 44100`, `C = 17000`: `prepare`
produces 3 samples, `restore` of those produces 2 samples — the original
length, well within ±1. -/
theorem roundtrip_length_witness :
    ∃ y z : List ℚ,
      ((AudioProcessor.mk [1, 1] 44100 17000).prepare sampleBackends
          "scipy").1 = .ok (y, 44100) ∧
      ((AudioProcessor.mk y 44100 17000).restore sampleBackends "scipy").1
          = .ok (z, 44100) ∧
      |(z.length : ℤ) - (([1, 1] : List ℚ).length : ℤ)| ≤ 1 :=
  roundtrip_length sampleBackends [1, 1] 44100 17000 (by decide) (by decide)
    (by decide) rfl

/-- Counterexample to claim C6: the kernel contains no cutoff validation.
With cutoff `C = 0` the constructor succeeds, and `prepare` on the precision
engine then fails with `ZeroDivisionError` — raised by the float division by
the zero intermediate rate in `_resample`'s sample-count computation, before
any backend is invoked — not with `InvalidCutoff`. (At the same input,
`restore`'s failure arises inside the external `scipy.signal.resample` call
at a requested length of 0, outside the kernel; the kernel raises no cutoff
error there either, but that path is the backend's, not the kernel's, and is
not asserted here.) -/
theorem no_invalidCutoff_counterexample :
    AudioProcessor.init ⟨.float64, [1]⟩ 44100 0 = .ok ⟨[1], 44100, 0⟩ ∧
    ((AudioProcessor.mk [1] 44100 0).prepare sampleBackends "scipy").1 =
      .error .zeroDivisionError ∧
    PyError.zeroDivisionError ≠ PyError.invalidCutoff :=
  ⟨rfl, rfl, by decide⟩

/-- Claim C6 amended: the kernel performs no cutoff validation and never
raises an `InvalidCutoff`-style error; the constructor accepts a
non-positive cutoff, and with `C = 0`, a nonzero original rate and the
precision engine available, `prepare` fails with `ZeroDivisionError` from
the zero intermediate rate (`I = 2·C = 0`) in `_resample`'s length
division, not from any cutoff check. (`restore` at `C = 0` fails inside the
external resampler, requested to produce 0 samples, before the kernel's own
`speed_factor` division by `I` is reached — again no cutoff check.) -/
theorem cutoff_zero_division (bk : Backends) (d : List ℚ) (R : ℤ)
    (hs : bk.scipyAvailable = true) (hR : ¬ (R : ℚ) = 0) :
    AudioProcessor.init ⟨.float64, d⟩ R 0 = .ok ⟨d, R, 0⟩ ∧
    ((AudioProcessor.mk d R 0).prepare bk "scipy").1 =
      .error .zeroDivisionError := by
  have hI : (AudioProcessor.mk d R 0).intermediate_sr = 0 := by
    norm_num [AudioProcessor.intermediate_sr]
  refine ⟨rfl, ?_⟩
  simp [AudioProcessor.prepare, AudioProcessor.resample, hR, hs, hI]

/-- Witness for the amended claim C6, at `R = 44100`, a one-sample buffer
and the concrete available backends. -/
theorem cutoff_zero_division_witness :
    AudioProcessor.init ⟨.float64, [1]⟩ 44100 0 = .ok ⟨[1], 44100, 0⟩ ∧
    ((AudioProcessor.mk [1] 44100 0).prepare sampleBackends "scipy").1 =
      .error .zeroDivisionError :=
  cutoff_zero_division sampleBackends [1] 44100 rfl (by norm_num)

/-- Counterexample to claim C7: an empty floating-point buffer passes the
constructor's validation — no `TypeError` (the spec's `InvalidInput`) is
raised for emptiness. -/
theorem empty_buffer_accepted_counterexample :
    AudioProcessor.init ⟨.float64, []⟩ 44100 17000 =
      .ok ⟨[], 44100, 17000⟩ := rfl

/-- Claim C7 amended: the constructor raises `TypeError` (the spec's
`InvalidInput`) exactly when the buffer's dtype is not floating-point;
emptiness is never validated, so an empty floating-point buffer is accepted
(with its samples stored unchanged). -/
theorem init_validation (arr : NDArray) (sr c : ℤ) :
    (arr.dtype.isFloating = false →
      AudioProcessor.init arr sr c = .error .typeError) ∧
    (arr.dtype.isFloating = true →
      AudioProcessor.init arr sr c = .ok ⟨arr.samples, sr, c⟩) := by
  constructor <;> intro h <;> simp [AudioProcessor.init, h]

/-- Witness for the amended claim C7: an integer-typed buffer is rejected
with `TypeError`; an empty `float32` buffer is accepted. -/
theorem init_validation_witness :
    AudioProcessor.init ⟨.int16, [1]⟩ 44100 17000 = .error .typeError ∧
    AudioProcessor.init ⟨.float32, []⟩ 8000 100 = .ok ⟨[], 8000, 100⟩ :=
  ⟨(init_validation ⟨.int16, [1]⟩ 44100 17000).1 rfl,
   (init_validation ⟨.float32, []⟩ 8000 100).2 rfl⟩
